import Mathlib

/-!
Verification of the timezones repository (src/timezone_manager.py,
src/main.py, src/table_generator.py) against its specification.

The Python code is shallowly embedded: each Lean definition mirrors one
Python function.  Timezones are modelled by their UTC offset in minutes at
the anchor instant (daylight saving already applied), which is exactly the
data `datetime.astimezone` consumes for the single-instant conversions the
program performs.  The float expression `hour + minute / 60.0` in
`get_period_type` is embedded as exact rational arithmetic: for
`hour < 24`, `minute < 60` the IEEE-754 double result never crosses the
integer boundaries 9, 12, 13, 18 in a different direction than the exact
value (the rounding error is below 2⁻⁴⁵ while the distance of nonzero
`minute/60` terms to an integer is at least 1/60), so the rational and the
float comparisons agree on the whole domain.
-/

namespace Timezones

/-- The three classification buckets returned by `get_period_type`
(`timezone_manager.py`, lines 161-179). -/
inductive PeriodType where
  | early_late
  | noon
  | normal
deriving DecidableEq, Repr

/-- Embeds `TimezoneManager.get_period_type` (`timezone_manager.py` 161-179):
`decimal_hour = hour + minute / 60.0`; early/late when `decimal_hour < 9`
or `decimal_hour >= 18`, noon when `12 <= decimal_hour < 13`, else normal. -/
def get_period_type (hour : ℕ) (minute : ℕ) : PeriodType :=
  let decimal_hour : ℚ := (hour : ℚ) + (minute : ℚ) / 60
  if decimal_hour < 9 ∨ 18 ≤ decimal_hour then PeriodType.early_late
  else if 12 ≤ decimal_hour ∧ decimal_hour < 13 then PeriodType.noon
  else PeriodType.normal

/-- A wall-clock time of day, as `datetime.hour` / `datetime.minute`. -/
structure LocalTime where
  hour : ℕ
  minute : ℕ
deriving DecidableEq, Repr

/-- Embeds `ref_time.astimezone(target_tz)` for a reference-local wall time `t`
whose zone has UTC offset `refOff` minutes at the instant, converted to a
zone with UTC offset `tgtOff` minutes at that instant: the target wall
clock is shifted by `tgtOff - refOff` minutes, wrapping modulo 24 h (the
calendar date may change; only hour/minute are consumed downstream). -/
def astimezone (refOff tgtOff : ℤ) (t : LocalTime) : LocalTime :=
  let total : ℤ := ((t.hour : ℤ) * 60 + (t.minute : ℤ)) - refOff + tgtOff
  let m : ℤ := total % 1440
  ⟨(m / 60).toNat, (m % 60).toNat⟩

/-- One element of the list built by `get_time_periods`: the dict with
keys time and type. -/
structure Period where
  time : LocalTime
  type : PeriodType
deriving DecidableEq, Repr

/-- The working-window start hour stored in `self.working_hours` (= 8). -/
def working_hours_start : ℕ := 8

/-- The working-window end hour stored in `self.working_hours` (= 20). -/
def working_hours_end : ℕ := 20

/-- Embeds `TimezoneManager.get_time_periods` (`timezone_manager.py` 181-223) for
a valid target timezone: the anchor is replaced by the working-window
start hour with minute and second zeroed, in the reference
zone, then for each whole hour of the working window the instant is
converted to the target zone and classified by `get_period_type` on the
target-local hour and minute.  `refOff` / `tgtOff` are the two zones' UTC
offsets in minutes at the anchor instant. -/
def get_time_periods (refOff tgtOff : ℤ) : List Period :=
  (List.range (working_hours_end - working_hours_start)).map (fun i =>
    let ref_time : LocalTime := ⟨working_hours_start + i, 0⟩
    let target_time := astimezone refOff tgtOff ref_time
    { time := target_time
      type := get_period_type target_time.hour target_time.minute })

/-- Two-digit zero-padded decimal rendering, as in `strftime` fields. -/
def two_digits (n : ℕ) : String :=
  if n < 10 then ("0") ++ toString n else toString n

/-- Embeds `TimezoneManager.format_time` (`timezone_manager.py` 225-237):
the pattern `%H:%M` when the minute is nonzero, else `%H:00`. -/
def format_time (t : LocalTime) : String :=
  if t.minute ≠ 0 then two_digits t.hour ++ ":" ++ two_digits t.minute
  else two_digits t.hour ++ ":00"

/-! Resolver, input loading and the `main` flow.  The Python string
methods used by the code are embedded over the character list of a
`String` so that the kernel can evaluate them. -/

/-- Python strip: drop leading and trailing whitespace. -/
def pyStrip (s : String) : String :=
  ⟨((s.data.dropWhile Char.isWhitespace).reverse.dropWhile Char.isWhitespace).reverse⟩

/-- Python `c in s` for a single character. -/
def pyContains (s : String) (c : Char) : Bool := s.data.contains c

/-- Python split on whitespace, first element, for a string with at least
one word: the first
maximal run of non-whitespace characters. -/
def firstWord (s : String) : String :=
  ⟨(s.data.dropWhile Char.isWhitespace).takeWhile (fun c => !c.isWhitespace)⟩

/-- Python split on the hash character, first element: the prefix before
the first hash. -/
def beforeHash (s : String) : String := ⟨s.data.takeWhile (fun c => c ≠ '#')⟩

/-- Python startswith. -/
def pyStartsWith (s t : String) : Bool := t.data.isPrefixOf s.data

/-- A timezone as the Engine consumes it at one anchor instant: the IANA
zone name, the UTC offset in minutes then in force (daylight saving
already applied), and whether daylight saving is active.  This is the
state `pytz.timezone(...)` contributes to the single-instant conversions
the program performs. -/
structure Tz where
  zone : String
  offsetMinutes : ℤ
  dst : Bool
deriving DecidableEq, Repr

/-- The fixed composite-code table `self.multi_timezone_countries`
(`timezone_manager.py` 52-71): code, display name, zone identifier. -/
def multi_timezone_countries : List (String × String × String) :=
  [("USA-E", "United States (Eastern)", "America/New_York"),
   ("USA-C", "United States (Central)", "America/Chicago"),
   ("USA-M", "United States (Mountain)", "America/Denver"),
   ("USA-P", "United States (Pacific)", "America/Los_Angeles"),
   ("RUS-W", "Russia (Western)", "Europe/Moscow"),
   ("RUS-C", "Russia (Central)", "Asia/Yekaterinburg"),
   ("RUS-E", "Russia (Eastern)", "Asia/Vladivostok"),
   ("CAN-E", "Canada (Eastern)", "America/Toronto"),
   ("CAN-C", "Canada (Central)", "America/Winnipeg"),
   ("CAN-M", "Canada (Mountain)", "America/Edmonton"),
   ("CAN-P", "Canada (Pacific)", "America/Vancouver"),
   ("BRA-E", "Brazil (Eastern)", "America/Sao_Paulo"),
   ("BRA-C", "Brazil (Central)", "America/Manaus"),
   ("CHN-E", "China (Eastern)", "Asia/Shanghai"),
   ("CHN-W", "China (Western)", "Asia/Urumqi"),
   ("AUS-E", "Australia (Eastern)", "Australia/Sydney"),
   ("AUS-C", "Australia (Central)", "Australia/Adelaide"),
   ("AUS-W", "Australia (Western)", "Australia/Perth")]

/-- Membership test / lookup in `self.multi_timezone_countries`, returning
`(display name, zone identifier)`. -/
def lookup_multi (code : String) : Option (String × String) :=
  (multi_timezone_countries.find? (fun e => e.1 == code)).map (fun e => e.2)

/-- The external databases (`pycountry`, `pytz`) as an opaque environment:
`alpha2 c` is `pycountry.countries.get(alpha_3=c).alpha_2`, `countryName c`
its `.name`, `country_timezones a2` is `pytz.country_timezones.get(a2, [])`,
and `timezone z` is `pytz.timezone(z)` together with the zone's offset and
daylight-saving state at the anchor instant (`none` models
`UnknownTimeZoneError`). -/
structure Resolver where
  alpha2 : String → Option String
  countryName : String → Option String
  country_timezones : String → List String
  timezone : String → Option Tz

/-- Embeds `TimezoneManager.get_timezone_for_country` (`timezone_manager.py`
96-119): composite table first, then first `pytz` zone of the `pycountry`
match. -/
def get_timezone_for_country (R : Resolver) (code : String) : Option String :=
  match lookup_multi code with
  | some p => some p.2
  | none =>
    match R.alpha2 code with
    | some a2 => (R.country_timezones a2).head?
    | none => none

/-- Embeds `TimezoneManager.get_country_name` (`timezone_manager.py` 239-256). -/
def get_country_name (R : Resolver) (code : String) : String :=
  match lookup_multi code with
  | some p => some p.1 |>.getD code
  | none =>
    match R.countryName code with
    | some n => n
    | none => code

/-- The lookup `self.alpha3_to_name.get(code, code)` used in the warning
messages:
names of composite codes were inserted first, then every `pycountry`
country name. -/
def alpha3_to_name (R : Resolver) (code : String) : String :=
  match lookup_multi code with
  | some p => p.1
  | none =>
    match R.countryName code with
    | some n => n
    | none => code

/-- Outcome of one line of the input file inside
`TimezoneManager.load_timezones` (`timezone_manager.py` 121-159). -/
inductive LineResult where
  | skip
  | warn (msg : String)
  | row (label : String) (tz : Tz)
deriving DecidableEq, Repr

/-- One iteration of the `load_timezones` loop: strip the line, skip
blanks and `#` comments, extract the first word before any inline
comment, resolve it, warn and skip on failure, else produce the
`(country_name, timezone)` pair. -/
def load_line (R : Resolver) (line : String) : LineResult :=
  let l := pyStrip line
  if l = "" ∨ pyStartsWith l ("#") then LineResult.skip
  else
    let cc0 := pyStrip (beforeHash l)
    let country_code := if cc0 = "" then "" else firstWord cc0
    if country_code = "" then LineResult.skip
    else
      match get_timezone_for_country R country_code with
      | none =>
          LineResult.warn ("Warning: Unknown country code ignored: " ++ country_code ++
            " (" ++ alpha3_to_name R country_code ++ ")")
      | some tz_name =>
          match R.timezone tz_name with
          | some tz => LineResult.row (get_country_name R country_code) tz
          | none =>
              LineResult.warn ("Warning: Invalid timezone ignored for country " ++
                alpha3_to_name R country_code ++ ": " ++ tz_name)

/-- Embeds `TimezoneManager.load_timezones`: the accumulated
`(country_name, timezone)` list. -/
def load_timezones (R : Resolver) (lines : List String) : List (String × Tz) :=
  lines.filterMap (fun l =>
    match load_line R l with
    | LineResult.row label tz => some (label, tz)
    | _ => none)

/-- The warnings printed during the same pass. -/
def load_warnings (R : Resolver) (lines : List String) : List String :=
  lines.filterMap (fun l =>
    match load_line R l with
    | LineResult.warn w => some w
    | _ => none)

/-- The errors `main` can terminate with (each makes the process print a
message and exit with a nonzero code). -/
inductive MainError where
  | invalid_reference
  | empty_result
  | type_error
deriving DecidableEq, Repr

/-- Embeds `TimezoneManager.__init__` (`timezone_manager.py` 18-36): a token
containing `'-'` must be a composite code; otherwise a `pycountry` alpha-3
code (first zone of the country) or a direct zone identifier; any failure
raises `ValueError`, which is fatal in `main`. -/
def resolve_reference (R : Resolver) (ref : String) : Except MainError Tz :=
  if pyContains ref '-' then
    match lookup_multi ref with
    | none => Except.error MainError.invalid_reference
    | some p =>
        match R.timezone p.2 with
        | some z => Except.ok z
        | none => Except.error MainError.invalid_reference
  else
    match R.alpha2 ref with
    | some a2 =>
        match (R.country_timezones a2).head? with
        | some zname =>
            match R.timezone zname with
            | some z => Except.ok z
            | none => Except.error MainError.invalid_reference
        | none => Except.error MainError.invalid_reference
    | none =>
        match R.timezone ref with
        | some z => Except.ok z
        | none => Except.error MainError.invalid_reference

/-- The value `main` passes to `get_time_periods` for one loaded target:
the source (`main.py` 82-86) passes the whole `(country_name, timezone)`
tuple, not the timezone alone. -/
inductive TargetArg where
  | tzinfoArg (tz : Tz)
  | tupleArg (label : String) (tz : Tz)
deriving DecidableEq, Repr

/-- Models `datetime.astimezone` applied to the dynamic argument: defined only
when the argument is a `tzinfo`; on the tuple it raises `TypeError`,
modelled as `none`. -/
def astimezone_dyn (refOff : ℤ) (arg : TargetArg) (t : LocalTime) : Option LocalTime :=
  match arg with
  | TargetArg.tzinfoArg tz => some (astimezone refOff tz.offsetMinutes t)
  | TargetArg.tupleArg _ _ => none

/-- Embeds `get_time_periods` with its dynamic argument: the loop propagates the
`TypeError` of the first conversion. -/
def get_time_periods_dyn (refOff : ℤ) (arg : TargetArg) : Option (List Period) :=
  (List.range (working_hours_end - working_hours_start)).mapM (fun i => do
    let t ← astimezone_dyn refOff arg ⟨working_hours_start + i, 0⟩
    pure ({ time := t, type := get_period_type t.hour t.minute } : Period))

/-- One entry of `timezone_data` in `main` (`main.py` 81-86): the dict
with keys timezone (the loaded country-name/timezone tuple) and
periods. -/
structure RowData where
  timezone : String × Tz
  periods : List Period
deriving DecidableEq, Repr

/-- The sort key of `main.py` line 89: hour times 60 plus minute of the
first period local time (every constructed row has twelve periods, so the
head is always present). -/
def rowKey (r : RowData) : ℕ :=
  match r.periods with
  | [] => 0
  | p :: _ => p.time.hour * 60 + p.time.minute

/-- The comparison `sorted` uses through its key function. -/
def rowLE (a b : RowData) : Prop := rowKey a ≤ rowKey b

instance : DecidableRel rowLE := fun a b => Nat.decLe (rowKey a) (rowKey b)

instance : IsTotal RowData rowLE := ⟨fun a b => Nat.le_total (rowKey a) (rowKey b)⟩

instance : IsTrans RowData rowLE := ⟨fun _ _ _ => Nat.le_trans⟩

/-- The Python builtin sorted call of `main.py` 89: sorted is specified
to be a stable ascending sort by the key, embedded by a stable sort. -/
def sortRows (l : List RowData) : List RowData := List.insertionSort rowLE l

/-- Embeds `main` (`main.py` 57-102) up to the renderer call: resolve the
reference (fatal on failure), load the targets (fatal when none loads),
build one row per loaded pair by calling `get_time_periods` on the loaded
tuple, sort by first-period local time.  `Except.error` means the
top-level handler prints the message and the process exits with code 1. -/
def main_run (R : Resolver) (ref : String) (lines : List String) :
    Except MainError (List RowData) :=
  match resolve_reference R ref with
  | Except.error e => Except.error e
  | Except.ok mgr =>
    let timezones := load_timezones R lines
    if timezones = [] then Except.error MainError.empty_result
    else
      match timezones.mapM (fun t =>
        match get_time_periods_dyn mgr.offsetMinutes (TargetArg.tupleArg t.1 t.2) with
        | some ps => Except.ok ({ timezone := t, periods := ps } : RowData)
        | none => Except.error MainError.type_error) with
      | Except.ok rows => Except.ok (sortRows rows)
      | Except.error e => Except.error e

/-- A small concrete environment: France and Germany resolve, everything
else is unknown. -/
def sampleResolver : Resolver where
  alpha2 := fun c => if c = "FRA" then some ("FR") else if c = "DEU" then some ("DE") else none
  countryName := fun c =>
    if c = "FRA" then some ("France") else if c = "DEU" then some ("Germany") else none
  country_timezones := fun a2 =>
    if a2 = "FR" then ["Europe/Paris"] else if a2 = "DE" then ["Europe/Berlin"] else []
  timezone := fun z =>
    if z = "Europe/Paris" then some ⟨"Europe/Paris", 120, true⟩
    else if z = "Europe/Berlin" then some ⟨"Europe/Berlin", 120, true⟩
    else none

/-- An environment whose zone database does know
`America/Port-au-Prince`. -/
def papResolver : Resolver where
  alpha2 := fun _ => none
  countryName := fun _ => none
  country_timezones := fun _ => []
  timezone := fun z =>
    if z = "America/Port-au-Prince" then some ⟨"America/Port-au-Prince", -240, false⟩
    else none

/-- Two concrete rows whose first-period keys tie (both 09:00). -/
def rowA : RowData := ⟨("A", ⟨"Zone/A", 0, false⟩), [⟨⟨9, 0⟩, PeriodType.normal⟩]⟩

/-- A second row with the same sort key as `rowA`. -/
def rowB : RowData := ⟨("B", ⟨"Zone/B", 0, false⟩), [⟨⟨9, 0⟩, PeriodType.normal⟩]⟩

/-! Title derivation (`table_generator.py` 93-113). -/

/-- Models the strftime percent-z field of the reference time: sign, then
the absolute offset as two hour digits and two minute digits. -/
def strftime_z (offsetMinutes : ℤ) : String :=
  (if offsetMinutes < 0 then ("-") else ("+")) ++
    two_digits (offsetMinutes.natAbs / 60) ++ two_digits (offsetMinutes.natAbs % 60)

/-- Embeds the offset label of `table_generator.py` 97-98: the word GMT,
a space, the first three characters of the percent-z field, a colon, and
the remaining characters. -/
def offset_str (offsetMinutes : ℤ) : String :=
  let offset := strftime_z offsetMinutes
  "GMT " ++ ⟨offset.data.take 3⟩ ++ ":" ++ ⟨offset.data.drop 3⟩

/-- The title string of `TableGenerator._draw_title` (`table_generator.py`
100): Summer or Winter by daylight saving, the words time in, the country
name, and the offset label in parentheses. -/
def draw_title (dst : Bool) (country_name : String) (offsetMinutes : ℤ) : String :=
  (if dst then ("Summer") else ("Winter")) ++ " time in " ++ country_name ++
    " (" ++ offset_str offsetMinutes ++ ")"

/-- The comparison `hour + minute/60 < 9` over ℚ is the integer comparison in minutes. -/
lemma decimal_lt9 (hour minute : ℕ) :
    ((hour : ℚ) + (minute : ℚ) / 60 < 9) ↔ (60 * hour + minute < 540) := by
  rw [show (hour : ℚ) + (minute : ℚ) / 60 = ((60 * hour + minute : ℕ) : ℚ) / 60 by
        push_cast; ring,
      div_lt_iff₀ (by norm_num)]
  norm_num
  exact_mod_cast Iff.rfl

/-- The comparison `18 ≤ hour + minute/60` over ℚ is the integer comparison in minutes. -/
lemma decimal_le18 (hour minute : ℕ) :
    (18 ≤ (hour : ℚ) + (minute : ℚ) / 60) ↔ (1080 ≤ 60 * hour + minute) := by
  rw [show (hour : ℚ) + (minute : ℚ) / 60 = ((60 * hour + minute : ℕ) : ℚ) / 60 by
        push_cast; ring,
      le_div_iff₀ (by norm_num)]
  norm_num
  exact_mod_cast Iff.rfl

/-- The comparison `12 ≤ hour + minute/60` over ℚ is the integer comparison in minutes. -/
lemma decimal_le12 (hour minute : ℕ) :
    (12 ≤ (hour : ℚ) + (minute : ℚ) / 60) ↔ (720 ≤ 60 * hour + minute) := by
  rw [show (hour : ℚ) + (minute : ℚ) / 60 = ((60 * hour + minute : ℕ) : ℚ) / 60 by
        push_cast; ring,
      le_div_iff₀ (by norm_num)]
  norm_num
  exact_mod_cast Iff.rfl

/-- The comparison `hour + minute/60 < 13` over ℚ is the integer comparison in minutes. -/
lemma decimal_lt13 (hour minute : ℕ) :
    ((hour : ℚ) + (minute : ℚ) / 60 < 13) ↔ (60 * hour + minute < 780) := by
  rw [show (hour : ℚ) + (minute : ℚ) / 60 = ((60 * hour + minute : ℕ) : ℚ) / 60 by
        push_cast; ring,
      div_lt_iff₀ (by norm_num)]
  norm_num
  exact_mod_cast Iff.rfl

/-- The exact rational classification equals an integer-minute computation,
which the kernel can evaluate. -/
lemma get_period_type_eq (hour minute : ℕ) :
    get_period_type hour minute =
      if 60 * hour + minute < 540 ∨ 1080 ≤ 60 * hour + minute then PeriodType.early_late
      else if 720 ≤ 60 * hour + minute ∧ 60 * hour + minute < 780 then PeriodType.noon
      else PeriodType.normal := by
  unfold get_period_type
  simp only [decimal_lt9, decimal_le18, decimal_le12, decimal_lt13]

/-- When the two offsets coincide, conversion is the identity on the
working-window wall times. -/
lemma astimezone_same_offset (r : ℤ) (t : LocalTime) :
    astimezone r r t = astimezone 0 0 t := by
  unfold astimezone
  simp [sub_add_cancel]

/-- The whole-window conversion of the tuple argument fails at its first
period: `datetime.astimezone` receives the `(country_name, timezone)`
tuple instead of a `tzinfo`. -/
lemma get_time_periods_dyn_tuple (off : ℤ) (label : String) (z : Tz) :
    get_time_periods_dyn off (TargetArg.tupleArg label z) = none := rfl

/-- `two_digits` really is two characters below 100. -/
lemma two_digits_data_length : ∀ n, n < 100 → (two_digits n).data.length = 2 := by
  decide

/-- Taking the first three characters of a list that starts with three
explicit characters. -/
lemma take3_cons (c a b : Char) (l : List Char) : (c :: a :: b :: l).take 3 = [c, a, b] :=
  rfl

/-- Dropping the first three characters of such a list. -/
lemma drop3_cons (c a b : Char) (l : List Char) : (c :: a :: b :: l).drop 3 = l :=
  rfl

/-- C1: for every hour in [0,24) and minute in [0,60), with decimal hour
`h = hour + minute/60`, the classification is EARLY_LATE iff `h < 9 ∨ h ≥ 18`,
NOON iff `12 ≤ h < 13`, NORMAL otherwise; and the seven boundary cases
9:00 → NORMAL, 8:59 → EARLY_LATE, 12:00 → NOON, 12:59 → NOON,
13:00 → NORMAL, 17:59 → NORMAL, 18:00 → EARLY_LATE hold. -/
theorem C1_classification_boundaries :
    (∀ hour, hour < 24 → ∀ minute, minute < 60 →
      (get_period_type hour minute = PeriodType.early_late ↔
        ((hour : ℚ) + (minute : ℚ) / 60 < 9 ∨ 18 ≤ (hour : ℚ) + (minute : ℚ) / 60)) ∧
      (get_period_type hour minute = PeriodType.noon ↔
        (12 ≤ (hour : ℚ) + (minute : ℚ) / 60 ∧ (hour : ℚ) + (minute : ℚ) / 60 < 13)) ∧
      (get_period_type hour minute = PeriodType.normal ↔
        (¬((hour : ℚ) + (minute : ℚ) / 60 < 9 ∨ 18 ≤ (hour : ℚ) + (minute : ℚ) / 60) ∧
         ¬(12 ≤ (hour : ℚ) + (minute : ℚ) / 60 ∧ (hour : ℚ) + (minute : ℚ) / 60 < 13)))) ∧
    get_period_type 9 0 = PeriodType.normal ∧
    get_period_type 8 59 = PeriodType.early_late ∧
    get_period_type 12 0 = PeriodType.noon ∧
    get_period_type 12 59 = PeriodType.noon ∧
    get_period_type 13 0 = PeriodType.normal ∧
    get_period_type 17 59 = PeriodType.normal ∧
    get_period_type 18 0 = PeriodType.early_late := by
  constructor
  · intro hour hh minute hm
    rw [get_period_type_eq]
    simp only [decimal_lt9, decimal_le18, decimal_le12, decimal_lt13]
    refine ⟨?_, ?_, ?_⟩ <;> (split_ifs with h1 h2 <;> simp_all <;> omega)
  · refine ⟨?_, ?_, ?_, ?_, ?_, ?_, ?_⟩ <;> (rw [get_period_type_eq]; decide)

/-- Witness for C1 at hour 9, minute 0. -/
theorem C1_witness :
    get_period_type 9 0 = PeriodType.early_late ↔
      ((9 : ℚ) + (0 : ℚ) / 60 < 9 ∨ 18 ≤ (9 : ℚ) + (0 : ℚ) / 60) :=
  (C1_classification_boundaries.1 9 (by decide) 0 (by decide)).1

/-- C2: for every pair of zone offsets at the anchor instant (hence for
every valid target timezone and every anchor instant), `get_time_periods`
is total, returns exactly `end - start = 12` periods, the `i`-th period
(reference-hour ascending) being the conversion of reference hour `8 + i`
to the target zone, classified by the boundary rule applied to that
period's own target-local hour and minute. -/
theorem C2_compute_periods_shape (refOff tgtOff : ℤ) :
    (get_time_periods refOff tgtOff).length = working_hours_end - working_hours_start ∧
    working_hours_end - working_hours_start = 12 ∧
    ∀ i, i < 12 →
      (get_time_periods refOff tgtOff)[i]? =
        some { time := astimezone refOff tgtOff ⟨working_hours_start + i, 0⟩
               type := get_period_type
                 (astimezone refOff tgtOff ⟨working_hours_start + i, 0⟩).hour
                 (astimezone refOff tgtOff ⟨working_hours_start + i, 0⟩).minute } := by
  refine ⟨by simp [get_time_periods], rfl, ?_⟩
  intro i hi
  unfold get_time_periods
  rw [List.getElem?_map, List.getElem?_range (by exact hi)]
  rfl

/-- Witness for C2 at offsets 0 and +330 (UTC+5:30), index 0:
reference 08:00 UTC maps to 13:30, classified NORMAL. -/
theorem C2_witness :
    (get_time_periods 0 330)[0]? = some ⟨⟨13, 30⟩, PeriodType.normal⟩ := by
  have h := (C2_compute_periods_shape 0 330).2.2 0 (by decide)
  rw [h, get_period_type_eq]
  rfl

/-- C3: when the target zone's UTC offset at the anchor instant equals the
reference zone's, the twelve periods are the local times 08:00 … 19:00
with minute 0, classified EARLY_LATE at 8, NORMAL at 9-11, NOON at 12,
NORMAL at 13-17, EARLY_LATE at 18 and 19. -/
theorem C3_same_offset_periods (refOff tgtOff : ℤ) (h : tgtOff = refOff) :
    get_time_periods refOff tgtOff =
      [⟨⟨8, 0⟩, PeriodType.early_late⟩,
       ⟨⟨9, 0⟩, PeriodType.normal⟩,
       ⟨⟨10, 0⟩, PeriodType.normal⟩,
       ⟨⟨11, 0⟩, PeriodType.normal⟩,
       ⟨⟨12, 0⟩, PeriodType.noon⟩,
       ⟨⟨13, 0⟩, PeriodType.normal⟩,
       ⟨⟨14, 0⟩, PeriodType.normal⟩,
       ⟨⟨15, 0⟩, PeriodType.normal⟩,
       ⟨⟨16, 0⟩, PeriodType.normal⟩,
       ⟨⟨17, 0⟩, PeriodType.normal⟩,
       ⟨⟨18, 0⟩, PeriodType.early_late⟩,
       ⟨⟨19, 0⟩, PeriodType.early_late⟩] := by
  subst h
  have key : get_time_periods tgtOff tgtOff = get_time_periods 0 0 := by
    unfold get_time_periods
    simp only [astimezone_same_offset]
  rw [key]
  have expand : ∀ hour minute : ℕ, get_period_type hour minute =
      if 60 * hour + minute < 540 ∨ 1080 ≤ 60 * hour + minute then PeriodType.early_late
      else if 720 ≤ 60 * hour + minute ∧ 60 * hour + minute < 780 then PeriodType.noon
      else PeriodType.normal := get_period_type_eq
  simp only [get_time_periods, expand]
  rfl

/-- Witness for C3 at offsets 0 and 0. -/
theorem C3_witness :
    get_time_periods 0 0 =
      [⟨⟨8, 0⟩, PeriodType.early_late⟩,
       ⟨⟨9, 0⟩, PeriodType.normal⟩,
       ⟨⟨10, 0⟩, PeriodType.normal⟩,
       ⟨⟨11, 0⟩, PeriodType.normal⟩,
       ⟨⟨12, 0⟩, PeriodType.noon⟩,
       ⟨⟨13, 0⟩, PeriodType.normal⟩,
       ⟨⟨14, 0⟩, PeriodType.normal⟩,
       ⟨⟨15, 0⟩, PeriodType.normal⟩,
       ⟨⟨16, 0⟩, PeriodType.normal⟩,
       ⟨⟨17, 0⟩, PeriodType.normal⟩,
       ⟨⟨18, 0⟩, PeriodType.early_late⟩,
       ⟨⟨19, 0⟩, PeriodType.early_late⟩] :=
  C3_same_offset_periods 0 0 rfl

/-- C4 (code bug): whenever the reference resolves and at least one input
line loads, `main` does NOT produce an image and exit 0 — it passes each
loaded `(country_name, timezone)` tuple itself to `get_time_periods`,
whose first `astimezone` call raises `TypeError`, so the top-level handler
exits with code 1. -/
theorem C4_tuple_target_crashes (R : Resolver) (ref : String) (lines : List String) (z : Tz)
    (h1 : resolve_reference R ref = Except.ok z)
    (h2 : load_timezones R lines ≠ []) :
    main_run R ref lines = Except.error MainError.type_error := by
  obtain ⟨t, ts, hts⟩ := List.exists_cons_of_ne_nil h2
  unfold main_run
  rw [h1]
  simp only [hts, get_time_periods_dyn_tuple]
  rfl

/-- Witness for C4: reference France, input file consisting of the single
resolving line `DEU`. -/
theorem C4_witness :
    main_run sampleResolver ("FRA") (["DEU"]) = Except.error MainError.type_error :=
  C4_tuple_target_crashes sampleResolver ("FRA") (["DEU"]) ⟨"Europe/Paris", 120, true⟩
    (by rfl) (by decide)

/-- C5: the row order produced by the sort of `main.py` line 89 is
ascending in `periods[0].time.hour * 60 + periods[0].time.minute`, it is a
permutation of the input rows, and it is stable: for every key value the
subsequence of rows carrying that key is exactly the input subsequence
(ties retain original order).  Determinism for identical inputs is
immediate since `sortRows` is a function of the row list alone. -/
theorem C5_sort_stable_ascending (l : List RowData) :
    List.Sorted rowLE (sortRows l) ∧
    List.Perm (sortRows l) l ∧
    ∀ k : ℕ, (sortRows l).filter (fun r => rowKey r == k) =
      l.filter (fun r => rowKey r == k) := by
  refine ⟨List.sorted_insertionSort rowLE l, List.perm_insertionSort rowLE l, ?_⟩
  intro k
  have hall : ∀ r ∈ l.filter (fun r => rowKey r == k), rowKey r = k := by
    intro r hr
    simpa using (List.mem_filter.mp hr).2
  have hpw : (l.filter (fun r => rowKey r == k)).Pairwise rowLE := by
    refine List.pairwise_of_forall_mem_list (fun a ha b hb => ?_)
    unfold rowLE
    rw [hall a ha, hall b hb]
  have h1 : List.Sublist (l.filter (fun r => rowKey r == k)) (sortRows l) :=
    List.sublist_insertionSort hpw (List.filter_sublist l)
  have h3 : List.Sublist (l.filter (fun r => rowKey r == k))
      ((sortRows l).filter (fun r => rowKey r == k)) := by
    have := h1.filter (fun r => rowKey r == k)
    rwa [List.filter_filter, show
      (fun r => (rowKey r == k) && (rowKey r == k)) = (fun r => rowKey r == k) by
        funext r; rw [Bool.and_self]] at this
  have hlen : ((sortRows l).filter (fun r => rowKey r == k)).length =
      (l.filter (fun r => rowKey r == k)).length :=
    ((List.perm_insertionSort rowLE l).filter (fun r => rowKey r == k)).length_eq
  exact (h3.eq_of_length hlen.symm).symm

/-- Witness for C5 on a two-row list with equal keys (order retained). -/
theorem C5_witness :
    (sortRows [rowA, rowB]).filter (fun r => rowKey r == 540) =
      ([rowA, rowB] : List RowData).filter (fun r => rowKey r == 540) :=
  (C5_sort_stable_ascending [rowA, rowB]).2.2 540

/-- C6: a line whose token does not resolve contributes no row and leaves
the other lines' rows untouched (loading continues, nothing raises), it
emits exactly one warning, and when no line at all resolves the run fails
with EMPTY_RESULT after the loading pass. -/
theorem C6_bad_line_recovered (R : Resolver) (l1 l2 : List String) (bad w : String)
    (hbad : load_line R bad = LineResult.warn w) :
    load_timezones R (l1 ++ bad :: l2) = load_timezones R l1 ++ load_timezones R l2 ∧
    load_warnings R (l1 ++ bad :: l2) = load_warnings R l1 ++ w :: load_warnings R l2 ∧
    (∀ ref z lines, resolve_reference R ref = Except.ok z →
      load_timezones R lines = [] →
      main_run R ref lines = Except.error MainError.empty_result) := by
  refine ⟨?_, ?_, ?_⟩
  · simp [load_timezones, List.filterMap_append, hbad]
  · simp [load_warnings, List.filterMap_append, hbad]
  · intro ref z lines h1 h2
    unfold main_run
    rw [h1]
    simp [h2]

/-- Witness for C6: the unknown token `XXX` between known lines. -/
theorem C6_witness :
    load_timezones sampleResolver (["DEU"] ++ "XXX" :: []) =
      load_timezones sampleResolver (["DEU"]) ++ load_timezones sampleResolver ([]) :=
  (C6_bad_line_recovered sampleResolver ["DEU"] [] "XXX"
    "Warning: Unknown country code ignored: XXX (XXX)" (by rfl)).1

/-- C7: an unresolvable reference token makes Engine construction fail
fatally, with the same error whatever the input file holds — the file is
never read. -/
theorem C7_invalid_reference_aborts (R : Resolver) (ref : String)
    (h : resolve_reference R ref = Except.error MainError.invalid_reference) :
    ∀ lines lines' : List String,
      main_run R ref lines = Except.error MainError.invalid_reference ∧
      main_run R ref lines = main_run R ref lines' := by
  have k : ∀ ls : List String,
      main_run R ref ls = Except.error MainError.invalid_reference := by
    intro ls
    unfold main_run
    rw [h]
  exact fun lines lines' => ⟨k lines, (k lines).trans (k lines').symm⟩

/-- Witness for C7 with the unknown reference token `ZZZ`. -/
theorem C7_witness :
    main_run sampleResolver ("ZZZ") (["DEU"]) = Except.error MainError.invalid_reference :=
  (C7_invalid_reference_aborts sampleResolver ("ZZZ") (by rfl) ["DEU"] []).1

/-- C8 counterexample: the rendered offset is the string GMT +02:00, with a space
between `GMT` and the signed offset — not the claimed exact format
`GMT±HH:MM`. -/
theorem C8_counterexample :
    offset_str 120 = "GMT +02:00" ∧
    offset_str 120 ≠ "GMT+02:00" ∧
    draw_title true ("France") 120 = "Summer time in France (GMT +02:00)" := by
  refine ⟨by decide, by decide, by decide⟩

/-- C8 (amended): for every reference daylight-saving state, country
display name and UTC offset of less than 100 hours, the title is exactly
`Summer`/`Winter` ` time in ` name ` (GMT ±HH:MM)` — with a space after
`GMT` — where `±HH:MM` is the signed zero-padded offset; no other logic
applies. -/
theorem C8_title_format (dst : Bool) (name : String) (off : ℤ)
    (h : off.natAbs < 6000) :
    draw_title dst name off =
      (if dst then ("Summer") else ("Winter")) ++ " time in " ++ name ++ " (GMT " ++
        (if off < 0 then ("-") else ("+")) ++ two_digits (off.natAbs / 60) ++ ":" ++
        two_digits (off.natAbs % 60) ++ ")" := by
  have hh : off.natAbs / 60 < 100 := by omega
  obtain ⟨a, b, hab⟩ := List.length_eq_two.mp (two_digits_data_length _ hh)
  apply String.ext
  simp only [draw_title, offset_str, strftime_z, String.data_append]
  rw [hab]
  rcases Int.lt_or_le off 0 with hneg | hpos
  · simp only [if_pos hneg, String.data_append]
    simp only [show (("-" : String)).data = ['-'] from rfl,
      List.cons_append, List.nil_append]
    rw [take3_cons, drop3_cons]
    simp [List.append_assoc]
  · simp only [if_neg (not_lt.mpr hpos), String.data_append]
    simp only [show (("+" : String)).data = ['+'] from rfl,
      List.cons_append, List.nil_append]
    rw [take3_cons, drop3_cons]
    simp [List.append_assoc]

/-- Witness for C8 with daylight saving active, name France, offset
+120 minutes. -/
theorem C8_witness :
    (120 : ℤ).natAbs < 6000 ∧
    draw_title true ("France") 120 =
      (if true then ("Summer") else ("Winter")) ++ " time in " ++ "France" ++ " (GMT " ++
        (if (120 : ℤ) < 0 then ("-") else ("+")) ++ two_digits ((120 : ℤ).natAbs / 60) ++
        ":" ++ two_digits ((120 : ℤ).natAbs % 60) ++ ")" :=
  ⟨by decide, C8_title_format true ("France") 120 (by decide)⟩

/-- C9 counterexample: with the reference zone itself at UTC+5:30 (offset
330 minutes, e.g. a run whose reference is India) and a target also at
UTC+5:30, every one of the twelve periods has minute 0 — a half-hour
target offset alone does not force a non-zero minute. -/
theorem C9_counterexample :
    ((get_time_periods 330 330).all (fun p => p.time.minute == 0)) = true := by
  decide

/-- C9 (amended): whenever the target zone's UTC offset at the anchor
instant differs from the reference zone's by other than a whole number of
hours (e.g. a UTC+5:30 target against a whole-hour reference), EVERY
period's local time has a non-zero minute — in particular at least one
does — and `format_time` renders each such time as `HH:MM`, showing the
minutes. -/
theorem C9_fractional_offset_minutes (refOff tgtOff : ℤ)
    (h : (tgtOff - refOff) % 60 ≠ 0) :
    (∀ p ∈ get_time_periods refOff tgtOff,
        p.time.minute ≠ 0 ∧
        format_time p.time =
          two_digits p.time.hour ++ ":" ++ two_digits p.time.minute) ∧
    ∃ p ∈ get_time_periods refOff tgtOff, p.time.minute ≠ 0 := by
  have main : ∀ p ∈ get_time_periods refOff tgtOff, p.time.minute ≠ 0 := by
    intro p hp
    unfold get_time_periods at hp
    obtain ⟨i, hi, rfl⟩ := List.mem_map.mp hp
    simp only [astimezone]
    omega
  have hne : get_time_periods refOff tgtOff ≠ [] := by
    unfold get_time_periods
    simp [working_hours_end, working_hours_start, List.range_succ]
  obtain ⟨p0, hp0⟩ := List.exists_mem_of_ne_nil _ hne
  exact ⟨fun p hp => ⟨main p hp, by simp [format_time, main p hp]⟩,
    ⟨p0, hp0, main p0 hp0⟩⟩

/-- Witness for C9 at reference offset 0 and target offset +330
(UTC+5:30). -/
theorem C9_witness :
    ((330 : ℤ) - 0) % 60 ≠ 0 ∧
    ∃ p ∈ get_time_periods 0 330, p.time.minute ≠ 0 :=
  ⟨by decide, (C9_fractional_offset_minutes 0 330 (by decide)).2⟩

/-- C10: any reference token containing `'-'` that is not one of the 19
composite codes fails Engine construction — for EVERY environment `R`,
including ones where the token is a perfectly valid zone identifier: the
composite table is consulted before any other resolution path. -/
theorem C10_hyphen_token_must_be_composite (R : Resolver) (ref : String)
    (h1 : pyContains ref '-' = true)
    (h2 : lookup_multi ref = none) :
    resolve_reference R ref = Except.error MainError.invalid_reference ∧
    ∀ lines, main_run R ref lines = Except.error MainError.invalid_reference := by
  have k : resolve_reference R ref = Except.error MainError.invalid_reference := by
    unfold resolve_reference
    rw [h1, h2]
    rfl
  refine ⟨k, fun lines => ?_⟩
  unfold main_run
  rw [k]

/-- Witness for C10: `America/Port-au-Prince` is a valid zone identifier
for the environment, yet Engine construction fails on it. -/
theorem C10_witness :
    papResolver.timezone ("America/Port-au-Prince") ≠ none ∧
    resolve_reference papResolver ("America/Port-au-Prince") =
      Except.error MainError.invalid_reference :=
  ⟨by decide,
   (C10_hyphen_token_must_be_composite papResolver ("America/Port-au-Prince")
     (by rfl) (by rfl)).1⟩

end Timezones
